import Mathlib

/-!
Verification development for the `recommenders` example material:
an Azure DevOps CI pipeline definition (YAML) and the notebook
`examples/00_quick_start/sar_movielens_with_azureml.ipynb`, which contains
an embedded generated training script `train.py`.

The notebook and the generated script are straight-line sequences of calls
into the Azure ML SDK, local file I/O and `reco_utils`.  We embed them as
programs in a tiny statement language (operations, sequencing, and Python's
`try`/bare-`except`), give that language an exception-propagation semantics
and a local-filesystem semantics, and embed the declarative CI pipeline as a
record.  Local paths are represented as lists of components; every local
path the notebook touches is written in the source as
`os.path.join(tmp_dir.name, ...)`, so operations carry the components
relative to the temporary directory and the filesystem semantics is
parameterised by the temporary directory's path `tmp`.
-/

/-- Statement language for the embedded Python code.  `op` is a single
call; `seq` is sequencing; `tryExcept b h` is Python's `try: b` followed by
a bare `except:` running `h` (a bare except catches every exception).  The
constructors `spawnThread`, `acquireLock` and `cancelJob` are the
concurrency primitives the language would offer; the embedded programs are
shown to use none of them. -/
inductive Stmt (α : Type) where
  | op : α → Stmt α
  | seq : Stmt α → Stmt α → Stmt α
  | tryExcept : Stmt α → Stmt α → Stmt α
  | spawnThread : Stmt α → Stmt α
  | acquireLock : Stmt α → Stmt α
  | cancelJob : Stmt α
deriving DecidableEq, Repr

/-- Exception-propagation semantics.  `raises` tells, for each operation,
whether it raises (and which exception value).  `some e` means the
statement terminates with uncaught exception `e`; `none` means normal
termination.  A bare `except` catches every exception of the `try` body;
an exception raised inside the handler itself propagates (as in Python). -/
def execStmt {α ε : Type} (raises : α → Option ε) : Stmt α → Option ε
  | Stmt.op o => raises o
  | Stmt.seq s₁ s₂ =>
    match execStmt raises s₁ with
    | some e => some e
    | none => execStmt raises s₂
  | Stmt.tryExcept b h =>
    match execStmt raises b with
    | none => none
    | some _ => execStmt raises h
  | Stmt.spawnThread s => execStmt raises s
  | Stmt.acquireLock s => execStmt raises s
  | Stmt.cancelJob => none

/-- Run a list of top-level statements (notebook cells) in order, stopping
at the first uncaught exception. -/
def execProg {α ε : Type} (raises : α → Option ε) : List (Stmt α) → Option ε
  | [] => none
  | s :: rest =>
    match execStmt raises s with
    | some e => some e
    | none => execProg raises rest

/-- All operations occurring syntactically in a statement, in program
order (for `tryExcept`, the try body before the handler). -/
def stmtOps {α : Type} : Stmt α → List α
  | Stmt.op o => [o]
  | Stmt.seq s₁ s₂ => stmtOps s₁ ++ stmtOps s₂
  | Stmt.tryExcept b h => stmtOps b ++ stmtOps h
  | Stmt.spawnThread s => stmtOps s
  | Stmt.acquireLock s => stmtOps s
  | Stmt.cancelJob => []

/-- All operations of a program, in program order. -/
def progOps {α : Type} (p : List (Stmt α)) : List α :=
  p.foldr (fun s acc => stmtOps s ++ acc) []

/-- Number of exception handlers (`try`/`except` statements) in a
statement. -/
def countHandlers {α : Type} : Stmt α → Nat
  | Stmt.op _ => 0
  | Stmt.seq s₁ s₂ => countHandlers s₁ + countHandlers s₂
  | Stmt.tryExcept b h => 1 + countHandlers b + countHandlers h
  | Stmt.spawnThread s => countHandlers s
  | Stmt.acquireLock s => countHandlers s
  | Stmt.cancelJob => 0

/-- Number of exception handlers in a program. -/
def countHandlersProg {α : Type} (p : List (Stmt α)) : Nat :=
  p.foldr (fun s acc => countHandlers s + acc) 0

/-- Number of concurrency primitives (thread spawns, lock acquisitions,
cancellations) in a statement. -/
def countConc {α : Type} : Stmt α → Nat
  | Stmt.op _ => 0
  | Stmt.seq s₁ s₂ => countConc s₁ + countConc s₂
  | Stmt.tryExcept b h => countConc b + countConc h
  | Stmt.spawnThread s => 1 + countConc s
  | Stmt.acquireLock s => 1 + countConc s
  | Stmt.cancelJob => 1

/-- Number of concurrency primitives in a program. -/
def countConcProg {α : Type} (p : List (Stmt α)) : Nat :=
  p.foldr (fun s acc => countConc s + acc) 0

/-- Notebook constant: top k items to recommend (`TOP_K = 10`). -/
def TOP_K : Int := 10

/-- Notebook constant: `MOVIELENS_DATA_SIZE = '100k'`. -/
def MOVIELENS_DATA_SIZE : String := "100k"

/-- Notebook constant: `TARGET_DIR = 'movielens'`, the `target_path` of the
datastore upload. -/
def TARGET_DIR : String := "movielens"

/-- Notebook constant: `VM_SIZE = 'STANDARD_D2_V2'`. -/
def VM_SIZE : String := "STANDARD_D2_V2"

/-- Notebook constant: `MIN_NODES = 0`. -/
def MIN_NODES : Nat := 0

/-- Notebook constant: `MAX_NODES = 2`. -/
def MAX_NODES : Nat := 2

/-- Notebook constant: `CLUSTER_NAME = 'cpucluster'`. -/
def CLUSTER_NAME : String := "cpucluster"

/-- Notebook constant: `EXPERIMENT_NAME = 'movielens-sar'`. -/
def EXPERIMENT_NAME : String := "movielens-sar"

/-- Notebook value: `data_file_name = "movielens_" + MOVIELENS_DATA_SIZE +
"_data.pkl"`. -/
def data_file_name : String := "movielens_" ++ MOVIELENS_DATA_SIZE ++ "_data.pkl"

/-- Operations performed by the notebook's code cells.  Local file paths
are carried as component lists relative to `tmp_dir.name` (each call site
in the source builds the path with `os.path.join(tmp_dir.name, ...)`). -/
inductive NbOp where
  | workspaceCreate
  | tmpDirCreate
  | datasetDownload (size : String)
  | dataToPickle (rel : List String)
  | datastoreUpload (srcRel : List String) (targetPath : String) (overwrite : Bool)
  | computeTargetLookup (name : String)
  | provisioningConfig (vmSize : String) (minNodes maxNodes : Nat)
  | computeTargetCreate (name : String)
  | waitForCompletion (timeoutMinutes : Nat)
  | makeScriptDir (rel : List String)
  | writeTrainScript (rel : List String)
  | copyRecoUtils (rel : List String)
  | createEstimator
  | experimentSubmit (experiment : String)
  | runDetailsShow
  | getMetrics
  | tmpCleanup
deriving DecidableEq, Repr

/-- Fallback branch of the compute-target cell: on lookup failure, build an
`AmlCompute.provisioning_configuration(vm_size=VM_SIZE, min_nodes=MIN_NODES,
max_nodes=MAX_NODES)`, call `ComputeTarget.create(ws, CLUSTER_NAME, ...)`,
then `wait_for_completion(..., timeout_in_minutes=20)`. -/
def computeClusterHandler : Stmt NbOp :=
  Stmt.seq (Stmt.op (NbOp.provisioningConfig VM_SIZE MIN_NODES MAX_NODES))
    (Stmt.seq (Stmt.op (NbOp.computeTargetCreate CLUSTER_NAME))
      (Stmt.op (NbOp.waitForCompletion 20)))

/-- The compute-target cell: `try: compute_target = ComputeTarget(ws,
CLUSTER_NAME) except: <provision a new cluster>` with a bare `except`. -/
def computeClusterStmt : Stmt NbOp :=
  Stmt.tryExcept (Stmt.op (NbOp.computeTargetLookup CLUSTER_NAME)) computeClusterHandler

/-- The notebook's code cells, in execution order: workspace creation,
temporary-directory creation, dataset download (`movielens.load_pandas_df`),
pickling to `tmp_dir`, datastore upload, the compute-target try/except,
script-directory creation, writing `train.py`, copying `reco_utils`,
estimator creation, experiment submission, the `RunDetails` widget, metric
retrieval, and `tmp_dir.cleanup()`. -/
def notebookProgram : List (Stmt NbOp) :=
  [Stmt.op NbOp.workspaceCreate,
   Stmt.op NbOp.tmpDirCreate,
   Stmt.op (NbOp.datasetDownload MOVIELENS_DATA_SIZE),
   Stmt.op (NbOp.dataToPickle [data_file_name]),
   Stmt.op (NbOp.datastoreUpload [] TARGET_DIR true),
   computeClusterStmt,
   Stmt.op (NbOp.makeScriptDir ["movielens-sar"]),
   Stmt.op (NbOp.writeTrainScript ["movielens-sar", "train.py"]),
   Stmt.op (NbOp.copyRecoUtils ["movielens-sar", "reco_utils"]),
   Stmt.op NbOp.createEstimator,
   Stmt.op (NbOp.experimentSubmit EXPERIMENT_NAME),
   Stmt.op NbOp.runDetailsShow,
   Stmt.op NbOp.getMetrics,
   Stmt.op NbOp.tmpCleanup]

/-- Environment in which exactly the operation `o` raises exception `e`
and every other operation succeeds. -/
def faultEnv {ε : Type} (o : NbOp) (e : ε) : NbOp → Option ε :=
  fun x => if x = o then some e else none

/-- Occurrence count of an operation in a program. -/
def countOp (p : List (Stmt NbOp)) (o : NbOp) : Nat :=
  (progOps p).count o

example : countHandlersProg notebookProgram = 1 := rfl
example : execProg (faultEnv NbOp.getMetrics (0 : Nat)) notebookProgram = some 0 := rfl

/-- A row of the MovieLens dataframe loaded by the notebook, with the
column schema `['UserId', 'MovieId', 'Rating', 'Timestamp']` that both the
notebook and `train.py` fix in their `header`. -/
structure Row where
  userId : Nat
  movieId : Nat
  rating : ℚ
  timestamp : Nat
deriving DecidableEq, Repr

/-- Linear congruential step, used as the deterministic pseudo-random
source of the modelled splitter. -/
def lcg (s : Nat) : Nat := (1664525 * s + 1013904223) % 4294967296

/-- Ceiling of a rational as an integer, computably. -/
def ceilQ (q : ℚ) : Int := -((-q).floor)

/-- Deterministic per-user split used by the modelled stratified splitter:
rotate the user's rows by a pseudo-random amount derived from the seed and
the user id, then keep the first `⌈ratio * length⌉` rows as train and the
rest as test. -/
def splitGroup (s : Nat) (ratio : ℚ) (u : Nat) (g : List Row) : List Row × List Row :=
  let len := g.length
  let rot := lcg (s + u) % (max len 1)
  let shuffled := g.drop rot ++ g.take rot
  let k := (ceilQ (ratio * (len : ℚ))).toNat
  (shuffled.take k, shuffled.drop k)

/-- Modelled from the spec: `reco_utils.dataset.python_splitters.
python_stratified_split` belongs to the repository's `reco_utils` library,
which is not under `src/` (only its call site inside the generated
`train.py` appears there).  The spec describes it as an external dataset
splitter; the real function seeds NumPy's random generator with `seed` and
splits each user's rows at fraction `ratio`.  We model it as stratifying
`data` by user and choosing each user's train fraction pseudo-randomly from
the seed; `entropy` stands for the ambient randomness that would be used if
no seed were supplied (`seed = none`).  The column-name arguments are kept
for call-site fidelity; the modelled `Row` schema fixes the columns. -/
def python_stratified_split (entropy : Nat) (data : List Row) (ratio : ℚ)
    (col_user col_item : String) (seed : Option Nat) : List Row × List Row :=
  let s := seed.getD entropy
  let users := (data.map Row.userId).dedup
  users.foldr
    (fun u acc =>
      let pr := splitGroup s ratio u (data.filter (fun r => r.userId == u))
      (pr.1 ++ acc.1, pr.2 ++ acc.2))
    ([], [])

/-- Operations performed by the generated `train.py` script. -/
inductive TrOp where
  | getRunContext
  | parseArgs
  | readPickle
  | logParam (name : String)
  | stratifiedSplit (ratio : ℚ) (seed : Option Nat)
  | sarInit (similarityType : String)
  | sarFit
  | recommendKItems
  | evalMetric (name : String)
  | logMetric (name : String)
  | joblibDump (file : String)
  | uploadFile (dest src : String)
deriving DecidableEq, Repr

/-- The generated `train.py`, statement by statement: get the run context,
parse the CLI arguments, read the pickled dataframe, log `top-k` and
`data-size`, split with `python_stratified_split(..., ratio=0.75, ...,
seed=42)`, build the SAR model with jaccard similarity, fit, log the
training time, predict, log the prediction time, compute the four
evaluation metrics, log them, dump the model, and upload the model file. -/
def trainProgram : List (Stmt TrOp) :=
  [Stmt.op TrOp.getRunContext,
   Stmt.op TrOp.parseArgs,
   Stmt.op TrOp.readPickle,
   Stmt.op (TrOp.logParam "top-k"),
   Stmt.op (TrOp.logParam "data-size"),
   Stmt.op (TrOp.stratifiedSplit 0.75 (some 42)),
   Stmt.op (TrOp.sarInit "jaccard"),
   Stmt.op TrOp.sarFit,
   Stmt.op (TrOp.logMetric "Training time"),
   Stmt.op TrOp.recommendKItems,
   Stmt.op (TrOp.logMetric "Prediction time"),
   Stmt.op (TrOp.evalMetric "map"),
   Stmt.op (TrOp.evalMetric "ndcg"),
   Stmt.op (TrOp.evalMetric "precision"),
   Stmt.op (TrOp.evalMetric "recall"),
   Stmt.op (TrOp.logMetric "map"),
   Stmt.op (TrOp.logMetric "ndcg"),
   Stmt.op (TrOp.logMetric "precision"),
   Stmt.op (TrOp.logMetric "recall"),
   Stmt.op (TrOp.joblibDump "movielens_sar_model.pkl"),
   Stmt.op (TrOp.uploadFile "outputs/movielens_sar_model.pkl" "movielens_sar_model.pkl")]

example : countHandlersProg trainProgram = 0 := rfl

/-- A Python value, as far as the embedded code needs: integers, strings,
and the datastore mount reference produced by `ds.as_mount()`. -/
inductive PyVal where
  | int (n : Int)
  | str (s : String)
  | mountRef
deriving DecidableEq, Repr

/-- Declared type of an argparse argument (`type=int` or `type=str`). -/
inductive ArgType where
  | int
  | str
deriving DecidableEq, Repr

/-- One `parser.add_argument(...)` call: flag, destination, declared type,
and declared default (a raw Python value, which in `train.py` is the
integer `10` for both `--top-k` and `--data-size`). -/
structure ArgSpec where
  flag : String
  dest : String
  ty : ArgType
  default : Option PyVal
deriving DecidableEq, Repr

/-- Apply an argparse `type` callable to a command-line string. -/
def convertArg : ArgType → String → Option PyVal
  | ArgType.str, s => some (PyVal.str s)
  | ArgType.int, s => (s.toInt?).map PyVal.int

/-- Argparse's value resolution for one argument: a value provided on the
command line is converted with the declared type; an absent argument gets
the declared default, to which the type is applied only when the default
is itself a string (argparse leaves non-string defaults untouched). -/
def parseArgValue (spec : ArgSpec) (provided : Option String) : Option PyVal :=
  match provided with
  | some s => convertArg spec.ty s
  | none =>
    match spec.default with
    | some (PyVal.str s) => convertArg spec.ty s
    | d => d

/-- The four `parser.add_argument` calls of the generated `train.py`, in
source order. -/
def trainArgSpecs : List ArgSpec :=
  [{ flag := "--data-folder", dest := "data_folder", ty := ArgType.str, default := none },
   { flag := "--data-file", dest := "data_file", ty := ArgType.str, default := none },
   { flag := "--top-k", dest := "top_k", ty := ArgType.int, default := some (PyVal.int 10) },
   { flag := "--data-size", dest := "data_size", ty := ArgType.str, default := some (PyVal.int 10) }]

/-- The `--data-size` argument spec: `type=str`, `default=10` (a Python
integer literal, not a string). -/
def dataSizeSpec : ArgSpec :=
  { flag := "--data-size", dest := "data_size", ty := ArgType.str, default := some (PyVal.int 10) }

/-- The sizes documented in the notebook and in the argument's help text:
`'Movielens data size: 100k, 1m, 10m, or 20m'`. -/
def documentedDataSizes : List String := ["100k", "1m", "10m", "20m"]

/-- The `--data-file` value the notebook passes:
`'movielens/' + data_file_name`. -/
def dataFileParam : String := "movielens/" ++ data_file_name

/-- The notebook's `script_params` dictionary, passed to the `Estimator`
for the remote invocation of `train.py`. -/
def scriptParams : List (String × PyVal) :=
  [("--data-folder", PyVal.mountRef),
   ("--data-file", PyVal.str dataFileParam),
   ("--top-k", PyVal.int TOP_K),
   ("--data-size", PyVal.str MOVIELENS_DATA_SIZE)]

/-- Whether a string's first character is `c`. -/
def strHeadIs (c : Char) (s : String) : Bool :=
  match s.data with
  | [] => false
  | a :: _ => a = c

/-- Whether a string's last character is `c`. -/
def strLastIs (c : Char) (s : String) : Bool :=
  match s.data.getLast? with
  | none => false
  | some a => a = c

/-- Model of Python's `os.path.join` on two components, as used by
`train.py` (`os.path.join(args.data_folder, args.data_file)`): an
absolute second component wins; otherwise the components are joined,
inserting '/' unless the first is empty or already ends in '/'. -/
def pathJoin (a b : String) : String :=
  if strHeadIs '/' b then b
  else if a = "" || strLastIs '/' a then a ++ b
  else a ++ "/" ++ b

/-- The datastore path (relative to the datastore root) at which
`ds.upload(src_dir=tmp_dir.name, target_path=TARGET_DIR, ...)` places the
pickled dataset file. -/
def uploadedDatastorePath : String := pathJoin TARGET_DIR data_file_name

/-- The path `train.py` reads the pickle from:
`os.path.join(args.data_folder, args.data_file)`. -/
def trainDataPicklePath (data_folder data_file : String) : String :=
  pathJoin data_folder data_file

/-- The path `train.py` reads on the remote compute, as a function of the
datastore mount root (the value of `--data-folder`). -/
def remoteReadPath (root : String) : String :=
  trainDataPicklePath root dataFileParam

/-- The CI pipeline definition (the repository's Azure DevOps YAML file):
PR trigger branches, commit trigger branches, variable group references,
and the template extension with its parameters.  The record lists every
key the YAML file contains. -/
structure CIPipeline where
  prBranches : List String
  triggerBranches : List String
  variableGroups : List String
  templateFile : String
  test_types : List String
  task_name : String
  conda_env : String
  conda_opts : String
  pip_opts : String
  pytest_markers : String
deriving DecidableEq, Repr

/-- The repository's CI pipeline YAML, field by field. -/
def ciPipeline : CIPipeline :=
  { prBranches := ["main", "staging"],
    triggerBranches := ["staging", "main"],
    variableGroups := ["LinuxAgentPool"],
    templateFile := "dsvm_linux_template.yml",
    test_types := ["unit"],
    task_name := "Test - Unit Notebook Linux GPU",
    conda_env := "unit_notebook_linux_gpu",
    conda_opts := "python=3.6 cudatoolkit=10.0 \"cudnn>=7.6\"",
    pip_opts := "[gpu,examples]  -f https://download.pytorch.org/whl/cu100/torch_stable.html",
    pytest_markers := "notebooks and not spark and gpu" }

/-- Local filesystem state: which paths (component lists) exist. -/
def FS : Type := List String → Bool

/-- Mark a path as existing. -/
def setPath (p : List String) (fs : FS) : FS :=
  fun q => if q = p then true else fs q

/-- Local-filesystem effect of one notebook operation, given the
temporary directory's path `tmp`.  The pickling, script-directory
creation, `train.py` write and `reco_utils` copy each create their path
under `tmp`; `tmp_dir.cleanup()` removes the whole `tmp` tree; every other
operation leaves the local filesystem unchanged (the SDK calls act on
remote cloud resources). -/
def applyOp (tmp : List String) (fs : FS) : NbOp → FS
  | NbOp.dataToPickle rel => setPath (tmp ++ rel) fs
  | NbOp.makeScriptDir rel => setPath (tmp ++ rel) fs
  | NbOp.writeTrainScript rel => setPath (tmp ++ rel) fs
  | NbOp.copyRecoUtils rel => setPath (tmp ++ rel) fs
  | NbOp.tmpCleanup => fun q => if tmp.isPrefixOf q then false else fs q
  | _ => fs

/-- Run the local-filesystem effects of a list of operations in order. -/
def runFS (tmp : List String) (fs : FS) : List NbOp → FS
  | [] => fs
  | o :: rest => runFS tmp (applyOp tmp fs o) rest

/-- Paths (relative to `tmp_dir`) written by one notebook operation. -/
def opWriteRels : NbOp → List (List String)
  | NbOp.dataToPickle rel => [rel]
  | NbOp.makeScriptDir rel => [rel]
  | NbOp.writeTrainScript rel => [rel]
  | NbOp.copyRecoUtils rel => [rel]
  | _ => []

/-- All local paths (relative to `tmp_dir`) written by the notebook. -/
def localWriteRels : List (List String) :=
  (progOps notebookProgram).foldr (fun o acc => opWriteRels o ++ acc) []

/-- Local filesystem after running the whole notebook (all operations of
`notebookProgram`, in program order). -/
def notebookFinalFS (tmp : List String) (fs : FS) : FS :=
  runFS tmp fs (progOps notebookProgram)

/-- The steps named by the spec's narrated sequence, in order. -/
inductive StepKind where
  | workspaceCreation
  | datasetUpload
  | computeAcquisition
  | scriptGeneration
  | estimatorSubmission
  | monitorAndMetrics
  | cleanup
deriving DecidableEq, Repr

/-- Position of a step in the spec's narrated sequence. -/
def stepIdx : StepKind → Nat
  | StepKind.workspaceCreation => 0
  | StepKind.datasetUpload => 1
  | StepKind.computeAcquisition => 2
  | StepKind.scriptGeneration => 3
  | StepKind.estimatorSubmission => 4
  | StepKind.monitorAndMetrics => 5
  | StepKind.cleanup => 6

/-- Which narrated step a notebook operation belongs to (`none` for
preparatory operations the narrated sequence does not name, such as
creating the temporary directory or downloading the dataset before the
upload). -/
def stepOf : NbOp → Option StepKind
  | NbOp.workspaceCreate => some StepKind.workspaceCreation
  | NbOp.tmpDirCreate => none
  | NbOp.datasetDownload _ => none
  | NbOp.dataToPickle _ => none
  | NbOp.datastoreUpload _ _ _ => some StepKind.datasetUpload
  | NbOp.computeTargetLookup _ => some StepKind.computeAcquisition
  | NbOp.provisioningConfig _ _ _ => some StepKind.computeAcquisition
  | NbOp.computeTargetCreate _ => some StepKind.computeAcquisition
  | NbOp.waitForCompletion _ => some StepKind.computeAcquisition
  | NbOp.makeScriptDir _ => some StepKind.scriptGeneration
  | NbOp.writeTrainScript _ => some StepKind.scriptGeneration
  | NbOp.copyRecoUtils _ => some StepKind.scriptGeneration
  | NbOp.createEstimator => some StepKind.estimatorSubmission
  | NbOp.experimentSubmit _ => some StepKind.estimatorSubmission
  | NbOp.runDetailsShow => some StepKind.monitorAndMetrics
  | NbOp.getMetrics => some StepKind.monitorAndMetrics
  | NbOp.tmpCleanup => some StepKind.cleanup

/-- The sequence of narrated steps the notebook's operations pass
through, in program order. -/
def notebookSteps : List StepKind :=
  (progOps notebookProgram).filterMap stepOf

/-- The operations of the notebook that sit inside the exception
handler's branch (the fallback provisioning code). -/
def handlerFlatOps : List NbOp := stmtOps computeClusterHandler

/-- The notebook operations the spec names as running outside any
exception handler: everything except the compute-target lookup and the
fallback provisioning branch. -/
def uncaughtNotebookOps : List NbOp :=
  [NbOp.workspaceCreate,
   NbOp.tmpDirCreate,
   NbOp.datasetDownload MOVIELENS_DATA_SIZE,
   NbOp.dataToPickle [data_file_name],
   NbOp.datastoreUpload [] TARGET_DIR true,
   NbOp.makeScriptDir ["movielens-sar"],
   NbOp.writeTrainScript ["movielens-sar", "train.py"],
   NbOp.copyRecoUtils ["movielens-sar", "reco_utils"],
   NbOp.createEstimator,
   NbOp.experimentSubmit EXPERIMENT_NAME,
   NbOp.runDetailsShow,
   NbOp.getMetrics,
   NbOp.tmpCleanup]

/-- Helper: a list is always a prefix of itself followed by anything. -/
theorem isPrefixOf_append (t r : List String) : t.isPrefixOf (t ++ r) = true := by
  induction t with
  | nil => simp [List.isPrefixOf]
  | cons a t ih => simp [List.isPrefixOf, ih]

/-- Claim C1: in the compute-target cell, the lookup of the cluster named
'cpucluster' is wrapped in a bare except catching every exception; in any
environment where the lookup raises, the cell behaves exactly as its
fallback branch, which provisions a new AmlCompute cluster with that name
(vm_size STANDARD_D2_V2, min_nodes 0, max_nodes 2); and this try/except is
the only exception handler in the repository's code (one in the notebook,
none in the generated train.py; the CI YAML is declarative). -/
theorem computeCluster_bare_except_only_handler (ε : Type)
    (raises : NbOp → Option ε) (e : ε)
    (h : raises (NbOp.computeTargetLookup CLUSTER_NAME) = some e) :
    notebookProgram[5]? = some computeClusterStmt
    ∧ computeClusterStmt
      = Stmt.tryExcept (Stmt.op (NbOp.computeTargetLookup "cpucluster")) computeClusterHandler
    ∧ computeClusterHandler
      = Stmt.seq (Stmt.op (NbOp.provisioningConfig "STANDARD_D2_V2" 0 2))
          (Stmt.seq (Stmt.op (NbOp.computeTargetCreate "cpucluster"))
            (Stmt.op (NbOp.waitForCompletion 20)))
    ∧ countHandlersProg notebookProgram = 1
    ∧ countHandlersProg trainProgram = 0
    ∧ execStmt raises computeClusterStmt = execStmt raises computeClusterHandler := by
  refine ⟨rfl, rfl, rfl, rfl, rfl, ?_⟩
  have hstep : execStmt raises computeClusterStmt
      = match raises (NbOp.computeTargetLookup CLUSTER_NAME) with
        | none => none
        | some _ => execStmt raises computeClusterHandler := rfl
  rw [hstep, h]

/-- Claim C1 witness: in the environment where every operation raises,
the compute-target cell runs its fallback branch. -/
theorem computeCluster_bare_except_only_handler_witness :
    execStmt (fun _ => (some 0 : Option Nat)) computeClusterStmt
    = execStmt (fun _ => (some 0 : Option Nat)) computeClusterHandler :=
  (computeCluster_bare_except_only_handler Nat (fun _ => some 0) 0 rfl).2.2.2.2.2

/-- Claim C2: each operation of the notebook outside the compute-target
try/except occurs exactly once (no retry or backoff), is not part of the
fallback branch, and if it raises while everything else succeeds the
exception propagates uncaught out of the notebook; moreover even a failure
of the fallback provisioning (after a failed lookup) propagates uncaught,
so only the lookup's own exception is ever caught. -/
theorem uncaught_ops_propagate (ε : Type) (e e₀ : ε) (o : NbOp)
    (h : o ∈ uncaughtNotebookOps) :
    (execProg (faultEnv o e) notebookProgram = some e
     ∧ countOp notebookProgram o = 1
     ∧ handlerFlatOps.contains o = false)
    ∧ execProg
        (fun x => if x = NbOp.computeTargetLookup CLUSTER_NAME then some e₀
                  else if x = NbOp.computeTargetCreate CLUSTER_NAME then some e else none)
        notebookProgram = some e := by
  constructor
  · fin_cases h <;> exact ⟨rfl, by decide, by decide⟩
  · rfl

/-- Claim C2 witness: instantiated at workspace creation, with exception
values in Nat. -/
theorem uncaught_ops_propagate_witness :
    (execProg (faultEnv NbOp.workspaceCreate (0 : Nat)) notebookProgram = some 0
     ∧ countOp notebookProgram NbOp.workspaceCreate = 1
     ∧ handlerFlatOps.contains NbOp.workspaceCreate = false)
    ∧ execProg
        (fun x => if x = NbOp.computeTargetLookup CLUSTER_NAME then some 1
                  else if x = NbOp.computeTargetCreate CLUSTER_NAME then some 0 else none)
        notebookProgram = some 0 :=
  uncaught_ops_propagate Nat 0 1 NbOp.workspaceCreate (by decide)

/-- Claim C3: the CI pipeline YAML defines exactly PR triggers on main and
staging, commit triggers on staging and main, the single variable group
LinuxAgentPool, and an extension of dsvm_linux_template.yml with the fixed
parameters test_types (unit), task_name, conda_env, conda_opts, pip_opts
and pytest_markers; the embedded record enumerates every key of the file,
so there is no other executable logic. -/
theorem ciPipeline_exact :
    ciPipeline.prBranches = ["main", "staging"]
    ∧ ciPipeline.triggerBranches = ["staging", "main"]
    ∧ ciPipeline.variableGroups = ["LinuxAgentPool"]
    ∧ ciPipeline.templateFile = "dsvm_linux_template.yml"
    ∧ ciPipeline.test_types = ["unit"]
    ∧ ciPipeline.task_name = "Test - Unit Notebook Linux GPU"
    ∧ ciPipeline.conda_env = "unit_notebook_linux_gpu"
    ∧ ciPipeline.conda_opts = "python=3.6 cudatoolkit=10.0 \"cudnn>=7.6\""
    ∧ ciPipeline.pip_opts = "[gpu,examples]  -f https://download.pytorch.org/whl/cu100/torch_stable.html"
    ∧ ciPipeline.pytest_markers = "notebooks and not spark and gpu" :=
  ⟨rfl, rfl, rfl, rfl, rfl, rfl, rfl, rfl, rfl, rfl⟩

/-- Claim C4: the generated train.py declares exactly the four
command-line arguments data-folder, data-file, top-k and data-size, and
the notebook's script_params passes exactly these four to the remote
invocation. -/
theorem train_args_exactly_four :
    trainArgSpecs.map ArgSpec.flag
      = ["--data-folder", "--data-file", "--top-k", "--data-size"]
    ∧ scriptParams.map Prod.fst
      = ["--data-folder", "--data-file", "--top-k", "--data-size"]
    ∧ trainArgSpecs.length = 4
    ∧ scriptParams.length = 4 :=
  ⟨rfl, rfl, rfl, rfl⟩

/-- Claim C5: running the notebook's cells in order passes through the
narrated steps in exactly the sequence workspace creation, dataset upload,
compute-target acquisition, training-script generation, estimator
submission, run monitoring and metric retrieval, cleanup; the step index
never decreases, so no step occurs before its predecessor. -/
theorem notebook_step_sequence :
    notebookSteps
      = [StepKind.workspaceCreation, StepKind.datasetUpload,
         StepKind.computeAcquisition, StepKind.computeAcquisition,
         StepKind.computeAcquisition, StepKind.computeAcquisition,
         StepKind.scriptGeneration, StepKind.scriptGeneration,
         StepKind.scriptGeneration,
         StepKind.estimatorSubmission, StepKind.estimatorSubmission,
         StepKind.monitorAndMetrics, StepKind.monitorAndMetrics,
         StepKind.cleanup]
    ∧ List.Pairwise (fun a b => stepIdx a ≤ stepIdx b) notebookSteps :=
  ⟨rfl, by decide⟩

/-- Claim C6: neither the notebook nor the generated train.py uses any
concurrency primitive (thread spawn, lock, cancellation), and in the
fallback branch the blocking wait_for_completion immediately follows the
cluster creation; execution is a single sequential statement list. -/
theorem no_concurrency_sequential :
    countConcProg notebookProgram = 0
    ∧ countConcProg trainProgram = 0
    ∧ stmtOps computeClusterHandler
      = [NbOp.provisioningConfig VM_SIZE MIN_NODES MAX_NODES,
         NbOp.computeTargetCreate CLUSTER_NAME,
         NbOp.waitForCompletion 20] :=
  ⟨rfl, rfl, rfl⟩

/-- Claim C7: every local path the notebook writes lies under
tmp_dir.name; after the full run (ending in tmp_dir.cleanup) any path
outside the temporary directory holds exactly its initial contents, and
any path under the temporary directory is gone. -/
theorem tmp_dir_frame (tmp : List String) (fs : FS) (q : List String) :
    localWriteRels.all (fun rel => tmp.isPrefixOf (tmp ++ rel)) = true
    ∧ (tmp.isPrefixOf q = false → notebookFinalFS tmp fs q = fs q)
    ∧ (tmp.isPrefixOf q = true → notebookFinalFS tmp fs q = false) := by
  refine ⟨?_, ?_, ?_⟩
  · simp [localWriteRels, progOps, notebookProgram, computeClusterStmt,
      computeClusterHandler, stmtOps, opWriteRels, isPrefixOf_append]
  · intro h
    have hne : ∀ r : List String, ¬(q = tmp ++ r) := by
      intro r hq
      rw [hq, isPrefixOf_append] at h
      exact Bool.noConfusion h
    simp [notebookFinalFS, progOps, notebookProgram, computeClusterStmt,
      computeClusterHandler, stmtOps, runFS, applyOp, setPath, h, hne]
  · intro h
    simp [notebookFinalFS, progOps, notebookProgram, computeClusterStmt,
      computeClusterHandler, stmtOps, runFS, applyOp, setPath, h]

/-- Claim C7 witness: with a concrete temporary directory, a path outside
it is untouched by the whole run and a path under it is removed. -/
theorem tmp_dir_frame_witness :
    (["tmpdir"] : List String).isPrefixOf ["etc", "hosts"] = false
    ∧ notebookFinalFS ["tmpdir"] (fun _ => false) ["etc", "hosts"] = false
    ∧ (["tmpdir"] : List String).isPrefixOf ["tmpdir", "train.py"] = true
    ∧ notebookFinalFS ["tmpdir"] (fun _ => false) ["tmpdir", "train.py"] = false :=
  ⟨by decide,
   (tmp_dir_frame ["tmpdir"] (fun _ => false) ["etc", "hosts"]).2.1 (by decide),
   by decide,
   (tmp_dir_frame ["tmpdir"] (fun _ => false) ["tmpdir", "train.py"]).2.2 (by decide)⟩

/-- Claim C8: the value of the data-file parameter equals the datastore
path at which the pickled dataset was uploaded, so the path train.py reads
(relative to the datastore mount root) is exactly the uploaded path; the
datastore directory is 'movielens', not 'data'. -/
theorem datastore_path_consistent :
    dataFileParam = uploadedDatastorePath
    ∧ (∀ root : String, remoteReadPath root = pathJoin root uploadedDatastorePath)
    ∧ TARGET_DIR = "movielens"
    ∧ (TARGET_DIR == "data") = false := by
  have h1 : dataFileParam = uploadedDatastorePath := by decide
  refine ⟨h1, fun root => ?_, rfl, by decide⟩
  simp only [remoteReadPath, trainDataPicklePath, h1]

/-- Claim C9: the data-size argument is declared with type str but default
10 (a Python int), argparse leaves the non-string default unconverted, so
an invocation without the flag yields the integer 10, which is none of the
documented sizes; the notebook itself always passes the flag explicitly as
the string '100k'. -/
theorem data_size_default_is_int :
    trainArgSpecs[3]? = some dataSizeSpec
    ∧ dataSizeSpec.ty = ArgType.str
    ∧ dataSizeSpec.default = some (PyVal.int 10)
    ∧ parseArgValue dataSizeSpec none = some (PyVal.int 10)
    ∧ (documentedDataSizes.map PyVal.str).contains (PyVal.int 10) = false
    ∧ scriptParams.lookup "--data-size" = some (PyVal.str MOVIELENS_DATA_SIZE)
    ∧ MOVIELENS_DATA_SIZE = "100k" := by
  refine ⟨rfl, rfl, rfl, rfl, by decide, by decide, rfl⟩

/-- Claim C10: train.py calls the stratified splitter with the fixed
ratio 0.75 and the fixed seed 42, and with a fixed seed the split is
independent of the ambient randomness: any two invocations on the same
dataframe produce identical train and test partitions. -/
theorem split_deterministic :
    trainProgram[5]? = some (Stmt.op (TrOp.stratifiedSplit 0.75 (some 42)))
    ∧ ∀ (entropy₁ entropy₂ : Nat) (data : List Row),
        python_stratified_split entropy₁ data 0.75 "UserId" "MovieId" (some 42)
        = python_stratified_split entropy₂ data 0.75 "UserId" "MovieId" (some 42) :=
  ⟨rfl, fun _ _ _ => rfl⟩
